import Mathlib

/-!
Verification of the inventory demand-forecasting and replenishment-planning
core of the `inventory-serde` Rust repository.

The Rust code is shallowly embedded:
* `f64`/`f32` arithmetic is modelled over `Rat` where the code uses only
  field operations, and over `Real` where a square root occurs
  (`Real.sqrt`); `as u32` casts of non-negative floats truncate toward
  zero, modelled as `Int.toNat ∘ Int.floor` (negative or NaN values cast
  to `0` in Rust, which `Int.toNat` reproduces for negatives, and the one
  NaN-producing path, `0.0/0.0` for an empty series, collapses to `0` in
  both semantics since `Rat` division by zero is `0`);
* `rust_decimal::Decimal` values are modelled as `Rat`; `Decimal`
  division panics on a zero divisor, which is made explicit by
  `decimalDiv`;
* `Uuid` values are modelled as natural numbers; `HashMap`s are modelled
  as association lists (all observable outputs of the embedded functions
  are either sorted before being returned or independent of bucket
  order, so the association-list order is immaterial);
* a Rust function that can panic or return `Result::Err` lands in
  `RustResult`, with the `panicked` constructor for panics;
* `chrono::DateTime<Utc>` is modelled as a `Timestamp` record carrying
  exactly the three projections the algorithms read: the calendar year,
  the ordinal day-of-year, and an absolute day number.
-/

/-- Transaction kinds of `models.rs` (`TransactionType`).  The Rust
variant `Return` is a reserved word in Lean and is embedded as `ret`. -/
inductive TransactionType where
  | receipt
  | shipment
  | adjustment
  | transfer
  | cycleCount
  | damaged
  | expired
  | ret
  deriving DecidableEq, Repr

/-- The three projections of a `chrono::DateTime<Utc>` instant that the
algorithms read: `.year()`, `.ordinal()` (day of year, 1-based) and an
absolute day number (used for `Duration::num_days` differences).  In
`chrono` all three are derived from one instant; the theorems below hold
for every field assignment, in particular the consistent ones. -/
structure Timestamp where
  year : Int
  ordinal : Nat
  absDay : Int
  deriving DecidableEq, Repr

/-- The fields of `models.rs::Transaction` read by the algorithms. -/
structure Transaction where
  product_id : Nat
  location_id : Nat
  transaction_type : TransactionType
  quantity : Int
  timestamp : Timestamp
  deriving DecidableEq, Repr

/-- The fields of `models.rs::InventorySnapshot` read and written by
`record_transaction`. -/
structure InventorySnapshot where
  product_id : Nat
  location_id : Nat
  quantity_on_hand : Nat
  quantity_available : Nat
  last_movement : Option Timestamp
  deriving DecidableEq, Repr

/-- The fields of `models.rs::Product` read by the algorithms
(`unit_cost` is the `Money` amount as a `Decimal`, modelled as `Rat`). -/
structure Product where
  unit_cost : Rat
  minimum_stock : Nat
  maximum_stock : Nat
  reorder_point : Nat
  lead_time_days : Nat
  deriving DecidableEq, Repr

/-- Error kinds of `errors.rs::InventoryError` relevant here (messages
dropped). -/
inductive InventoryError where
  | validationError
  | calculationError
  deriving DecidableEq, Repr

/-- Outcome of a Rust call: a value, an `Err`, or a panic. -/
inductive RustResult (α : Type) where
  | ok (a : α)
  | err (e : InventoryError)
  | panicked
  deriving DecidableEq, Repr

namespace RustResult

/-- Monadic bind on `RustResult`, mirroring the `?` operator (and the
fact that a panic propagates past any `?`). -/
def bind {α β : Type} : RustResult α → (α → RustResult β) → RustResult β
  | ok a, f => f a
  | err e, _ => err e
  | panicked, _ => panicked

/-- Whether the call returned a value. -/
def isOk {α : Type} : RustResult α → Bool
  | ok _ => true
  | _ => false

end RustResult

/-- `rust_decimal` division: panics on a zero divisor (the `Div` impl
unwraps `checked_div`), exact otherwise. -/
def decimalDiv (a b : Rat) : RustResult Rat :=
  if b = 0 then .panicked else .ok (a / b)

/-- The state of `algorithms.rs::InventorySystem`: product catalog keyed
by id, inventory snapshots keyed by (product id, location id), and the
transaction log. -/
structure InventorySystem where
  products : List (Nat × Product)
  inventory : List ((Nat × Nat) × InventorySnapshot)
  transactions : List Transaction
  deriving DecidableEq, Repr

/-! ### SeriesAggregator: calculate_weekly_demands -/

/-- The (year, week) bucket key of a transaction, with the week computed
as in `calculate_weekly_demands`: `(ordinal - 1) / 7 + 1` (in `chrono`
the ordinal is always at least 1, so the `u32` subtraction never
underflows; `Nat` subtraction agrees on that domain). -/
def weekKey (t : Transaction) : Int × Nat :=
  (t.timestamp.year, (t.timestamp.ordinal - 1) / 7 + 1)

/-- Add `q` to the bucket of key `k` in an association list, appending a
fresh bucket if the key is absent (the value content of
`HashMap::entry(k).or_insert(0) += q`). -/
def bumpBucket (k : Int × Nat) (q : Nat) : List ((Int × Nat) × Nat) → List ((Int × Nat) × Nat)
  | [] => [(k, q)]
  | (k', v) :: rest => if k' = k then (k', v + q) :: rest else (k', v) :: bumpBucket k q rest

/-- The grouping loop of `calculate_weekly_demands`: only `Shipment`
transactions contribute, by absolute quantity, into their (year, week)
bucket. -/
def groupShipments (txs : List Transaction) : List ((Int × Nat) × Nat) :=
  txs.foldl
    (fun m t =>
      if t.transaction_type = TransactionType.shipment then
        bumpBucket (weekKey t) t.quantity.natAbs m
      else m)
    []

/-- `InventorySystem::calculate_weekly_demands`: group shipment
quantities by (year, week), drop the keys, and sort the values
ascending (`demands.sort()` in the source sorts the `Vec<u32>` of
bucket values; the bucket values do not depend on `HashMap` iteration
order, and sorting erases it entirely).  The source wraps the result in
an always-`Ok` `InventoryResult`; the embedding returns the list. -/
def calculate_weekly_demands (txs : List Transaction) : List Nat :=
  ((groupShipments txs).map Prod.snd).insertionSort (· ≤ ·)

/-- Lexicographic order on (year, week) keys. -/
def keyLe (a b : Int × Nat) : Prop :=
  a.1 < b.1 ∨ (a.1 = b.1 ∧ a.2 ≤ b.2)

instance : DecidableRel keyLe := fun a b => by unfold keyLe; infer_instance

/-- Modelled from the spec: the weekly series as the spec describes it —
the per-(year, week) sums ordered chronologically, i.e. sorted ascending
by their (year, week-number) key. -/
def specWeeklySeries (txs : List Transaction) : List Nat :=
  ((groupShipments txs).insertionSort (fun a b => keyLe a.1 b.1)).map Prod.snd

/-- Total quantity a bucket list holds for key `k` (keys in a
`groupShipments` result are unique, so this is the bucket value). -/
def keyTotal : List ((Int × Nat) × Nat) → (Int × Nat) → Nat
  | [], _ => 0
  | e :: rest, k => (if e.1 = k then e.2 else 0) + keyTotal rest k

/-- The sum of absolute shipment quantities of `txs` falling in the
(year, week) bucket `k` — the spec-level description of a bucket. -/
def shipmentSumAt (txs : List Transaction) (k : Int × Nat) : Nat :=
  ((txs.filter
      (fun t => t.transaction_type = TransactionType.shipment ∧ weekKey t = k)).map
    (fun t => t.quantity.natAbs)).sum

/-! ### TrendEstimator: calculate_trend -/

/-- Numerator of the least-squares slope computed by `calculate_trend`:
`n·Σxy − Σx·Σy` with x the 0-based week index and y the demand. -/
def trendNum (l : List Nat) : Rat :=
  (l.length : Rat) * (∑ i in Finset.range l.length, (i : Rat) * (l.getD i 0 : Rat)) -
    (∑ i in Finset.range l.length, (i : Rat)) * (∑ i in Finset.range l.length, (l.getD i 0 : Rat))

/-- Denominator of the least-squares slope: `n·Σx² − (Σx)²`. -/
def trendDen (l : List Nat) : Rat :=
  (l.length : Rat) * (∑ i in Finset.range l.length, (i : Rat) ^ 2) -
    (∑ i in Finset.range l.length, (i : Rat)) ^ 2

/-- `InventorySystem::calculate_trend`: fewer than 2 points gives 0;
otherwise the OLS slope, with 0 returned when the denominator is
degenerate (the source compares `|denominator|` against `f64::EPSILON`;
over the integer-valued index sums the denominator is an integer, so the
check is exactly a zero test).  The source wraps the result in an
always-`Ok` `InventoryResult`; the embedding returns the value. -/
def calculate_trend (l : List Nat) : Rat :=
  if l.length < 2 then 0
  else if trendDen l = 0 then 0
  else trendNum l / trendDen l

/-! ### DemandForecaster: confidence and forecast_demand -/

/-- Mean of a weekly-demand series as computed in the source
(`sum as f64 / len as f64`; for the empty list Rust produces NaN where
`Rat` division yields 0 — every consumer below either guards the empty
case or collapses NaN to 0 the same way the Rust `as u32` cast does). -/
def meanQ (l : List Nat) : Rat := (l.sum : Rat) / (l.length : Rat)

/-- Population variance (division by `len`) used by
`calculate_forecast_confidence`. -/
def popVarQ (l : List Nat) : Rat :=
  (∑ i in Finset.range l.length, ((l.getD i 0 : Rat) - meanQ l) ^ 2) / (l.length : Rat)

/-- Sample variance (division by `len - 1`) used by
`calculate_safety_stock`. -/
def sampleVarQ (l : List Nat) : Rat :=
  (∑ i in Finset.range l.length, ((l.getD i 0 : Rat) - meanQ l) ^ 2) / ((l.length - 1 : Nat) : Rat)

/-- `InventorySystem::calculate_forecast_confidence`: fixed 0.5 below 3
points; otherwise `1 − min(cov, 1)` clamped below at 0.1, where the
coefficient of variation is `stdev/mean` for positive mean and **1.0**
otherwise (the `else` arm of `if mean > 0.0`). -/
noncomputable def calculate_forecast_confidence (l : List Nat) : Real :=
  if l.length < 3 then 1/2
  else
    let cov : Real := if 0 < meanQ l then Real.sqrt (popVarQ l) / (meanQ l : Real) else 1
    max (1 - min cov 1) (1/10)

/-- `InventorySystem::get_product_transactions`. -/
def get_product_transactions (s : InventorySystem) (pid : Nat) : List Transaction :=
  s.transactions.filter (fun t => t.product_id = pid)

/-- The result record of `forecast_demand` (`DemandForecast`). -/
structure DemandForecast where
  product_id : Nat
  forecast_period_days : Nat
  predicted_demand : Nat
  annual_demand : Nat
  confidence_level : Real
  trend_factor : Rat

/-- `InventorySystem::forecast_demand`.  The three branches of the
source: no transactions at all; fewer than 2 weekly buckets (flat
average); and the general path (exponential smoothing with α = 0.3 over
the sorted weekly series, plus the linear-regression trend). -/
noncomputable def forecast_demand (s : InventorySystem) (pid : Nat) (days : Nat) :
    RustResult DemandForecast :=
  let txs := get_product_transactions s pid
  if txs.isEmpty then
    .ok ⟨pid, days, 0, 0, 0, 0⟩
  else
    let weekly := calculate_weekly_demands txs
    if weekly.length < 2 then
      let avg : Nat := weekly.headD 0
      .ok ⟨pid, days, (Int.floor ((avg * days : Rat) / 7)).toNat,
        (Int.floor ((avg : Rat) * 52)).toNat, 1/2, 0⟩
    else
      let trend := calculate_trend weekly
      let forecast : Rat :=
        weekly.tail.foldl (fun f d => 3/10 * (d : Rat) + 7/10 * f) (weekly.headD 0 : Rat)
      let weeks_ahead : Rat := (days : Rat) / 7
      let predicted : Nat := (Int.floor (max ((forecast + trend * weeks_ahead) * weeks_ahead) 0)).toNat
      .ok ⟨pid, days, predicted, (Int.floor (max (forecast * 52) 0)).toNat,
        calculate_forecast_confidence weekly, trend⟩

/-! ### SafetyStockCalculator (pipeline): calculate_safety_stock -/

/-- Association-list lookup for the catalog / inventory maps. -/
def findEntry {κ α : Type} [DecidableEq κ] : List (κ × α) → κ → Option α
  | [], _ => none
  | (k, a) :: rest, key => if k = key then some a else findEntry rest key

/-- `InventorySystem::calculate_safety_stock`: below 3 weekly buckets a
25%-of-average rule of thumb, otherwise `1.645 · stdev · sqrt(lead time
in weeks)` (lead time defaulting to 2 weeks for an unknown product),
truncated to `u32` after a `max` with 0. -/
noncomputable def calculate_safety_stock (s : InventorySystem) (pid : Nat) : Nat :=
  let weekly := calculate_weekly_demands (get_product_transactions s pid)
  if weekly.length < 3 then
    (Int.floor (meanQ weekly * (1/4) : Rat)).toNat
  else
    let std_dev : Real := Real.sqrt (sampleVarQ weekly)
    let lead_time_weeks : Rat :=
      match findEntry s.products pid with
      | some p => (p.lead_time_days : Rat) / 7
      | none => 2
    (Int.floor (max (1645/1000 * std_dev * Real.sqrt (lead_time_weeks : Real)) 0)).toNat

/-! ### LotSizeCalculator: Product.calculate_eoq -/

/-- `Product::calculate_eoq`.  Zero annual demand returns `Ok(0)` before
anything else.  The holding cost is 25% of the unit cost; the `Decimal`
division by it **panics** when it is zero (the `Div` impl of
`rust_decimal` unwraps `checked_div`).  A negative radicand makes `f64::sqrt` return
NaN, which `Decimal::from_f64_retain` rejects, giving the `Err` branch.
Otherwise the EOQ is the rounded square root, floored at 1 (the
`parse().unwrap_or(1)` fallback is unreachable for the non-negative
rounded values that reach it). -/
noncomputable def Product.calculate_eoq (p : Product) (annual_demand : Nat)
    (ordering_cost : Rat) : RustResult Nat :=
  if annual_demand = 0 then .ok 0
  else
    let holding_cost : Rat := p.unit_cost * (1/4)
    (decimalDiv (2 * (annual_demand : Rat) * ordering_cost) holding_cost).bind fun eoq_squared =>
      if eoq_squared < 0 then .err .calculationError
      else .ok (max (round (Real.sqrt (eoq_squared : Real))).toNat 1)

/-! ### ReplenishmentPlanner: urgency and calculate_reorder_recommendations -/

/-- `algorithms.rs::calculate_urgency` (an `f32`-valued pure function,
modelled over `Rat`).  The guards are evaluated in source order:
`current_stock == 0`, then `current_stock <= minimum_stock`, then
`current_stock <= reorder_point`, else the 0.1 fallthrough.  In the
interpolation branch both `u32` subtractions are non-underflowing
(`current_stock <= reorder_point` and, since the previous guard failed,
`minimum_stock < current_stock <= reorder_point`), so `Nat` subtraction
agrees. -/
def calculate_urgency (current_stock reorder_point minimum_stock : Nat) : Rat :=
  if current_stock = 0 then 1
  else if current_stock ≤ minimum_stock then 9/10
  else if current_stock ≤ reorder_point then
    1/2 + 2/5 * (((reorder_point - current_stock : Nat) : Rat) /
      ((max (reorder_point - minimum_stock) 1 : Nat) : Rat))
  else 1/10

/-- `Product::needs_reorder`. -/
def Product.needs_reorder (p : Product) (current_stock : Nat) : Prop :=
  current_stock ≤ p.reorder_point

instance (p : Product) (c : Nat) : Decidable (p.needs_reorder c) := by
  unfold Product.needs_reorder; infer_instance

/-- `InventorySystem::get_total_inventory_for_product`: total on-hand
over all locations. -/
def get_total_inventory_for_product (s : InventorySystem) (pid : Nat) : Nat :=
  ((s.inventory.map Prod.snd).filter (fun sn => sn.product_id = pid)).foldl
    (fun a sn => a + sn.quantity_on_hand) 0

/-- The result record of the planner (`ReorderRecommendation`). -/
structure ReorderRecommendation where
  product_id : Nat
  current_stock : Nat
  reorder_point : Nat
  recommended_quantity : Nat
  safety_stock : Nat
  demand_forecast : DemandForecast
  urgency : Rat

/-- The loop body of `calculate_reorder_recommendations` for one catalog
entry: skip items above their reorder point, otherwise run the 90-day
forecast, the safety stock, and the EOQ (at the hard-coded $50 ordering
cost), each `?`-propagated. -/
noncomputable def reorderItemStep (s : InventorySystem) (pid : Nat) (p : Product) :
    RustResult (Option ReorderRecommendation) :=
  let total_inventory := get_total_inventory_for_product s pid
  if p.needs_reorder total_inventory then
    (forecast_demand s pid 90).bind fun demand_forecast =>
      let safety_stock := calculate_safety_stock s pid
      (p.calculate_eoq demand_forecast.annual_demand 50).bind fun order_quantity =>
        .ok (some ⟨pid, total_inventory, p.reorder_point, order_quantity, safety_stock,
          demand_forecast,
          calculate_urgency total_inventory p.reorder_point p.minimum_stock⟩)
  else .ok none

/-- The catalog loop of `calculate_reorder_recommendations`: the first
error (or panic) of the first failing item aborts the whole batch. -/
noncomputable def reorderLoop (s : InventorySystem) :
    List (Nat × Product) → List ReorderRecommendation →
      RustResult (List ReorderRecommendation)
  | [], acc => .ok acc
  | (pid, p) :: rest, acc =>
    (reorderItemStep s pid p).bind fun r =>
      match r with
      | none => reorderLoop s rest acc
      | some rec' => reorderLoop s rest (acc ++ [rec'])

/-- `InventorySystem::calculate_reorder_recommendations`: run the catalog
loop, then sort the survivors descending by urgency (`sort_by` with the
reversed `partial_cmp` is a stable descending sort, as is insertion sort
with this relation). -/
noncomputable def calculate_reorder_recommendations (s : InventorySystem) :
    RustResult (List ReorderRecommendation) :=
  (reorderLoop s s.products []).bind fun recs =>
    .ok (recs.insertionSort (fun a b => b.urgency ≤ a.urgency))

/-! ### record_transaction -/

/-- Replace the value stored at `key`, preserving positions. -/
def setEntry {κ α : Type} [DecidableEq κ] (m : List (κ × α)) (key : κ) (a : α) :
    List (κ × α) :=
  m.map (fun e => if e.1 = key then (key, a) else e)

/-- The per-type snapshot update of `record_transaction` for a found
snapshot, also stamping `last_movement` (which the source does after the
`match`, for every arm including the catch-all `_ => {}`).  `u32`
saturating subtractions become `Nat` subtractions; the checked shipment
subtraction cannot underflow on the path that performs it. -/
def applyTransaction (snap : InventorySnapshot) (t : Transaction) : InventorySnapshot :=
  let snap' :=
    match t.transaction_type with
    | .receipt | .ret =>
      { snap with quantity_on_hand := snap.quantity_on_hand + t.quantity.natAbs,
                  quantity_available := snap.quantity_available + t.quantity.natAbs }
    | .shipment =>
      { snap with quantity_on_hand := snap.quantity_on_hand - t.quantity.natAbs,
                  quantity_available := snap.quantity_available - t.quantity.natAbs }
    | .adjustment =>
      if 0 ≤ t.quantity then
        { snap with quantity_on_hand := snap.quantity_on_hand + t.quantity.toNat,
                    quantity_available := snap.quantity_available + t.quantity.toNat }
      else
        { snap with quantity_on_hand := snap.quantity_on_hand - t.quantity.natAbs,
                    quantity_available := snap.quantity_available - t.quantity.natAbs }
    | _ => snap
  { snap' with last_movement := some t.timestamp }

/-- `InventorySystem::record_transaction`: update the (product,
location) snapshot if one exists — rejecting a shipment that exceeds the
on-hand quantity before any mutation — then append the transaction to
the log.  The pair returned is (call outcome, state after the call);
on the error path the state is returned unchanged, exactly as the early
`return Err(...)` leaves `self`. -/
def record_transaction (s : InventorySystem) (t : Transaction) :
    RustResult Unit × InventorySystem :=
  match findEntry s.inventory (t.product_id, t.location_id) with
  | none => (.ok (), { s with transactions := s.transactions ++ [t] })
  | some snap =>
    if t.transaction_type = TransactionType.shipment ∧
        snap.quantity_on_hand < t.quantity.natAbs then
      (.err .validationError, s)
    else
      (.ok (), { s with
        inventory := setEntry s.inventory (t.product_id, t.location_id)
          (applyTransaction snap t),
        transactions := s.transactions ++ [t] })

/-! ### ValueClassifier: annual demand and perform_abc_analysis -/

/-- The shipment total inside `calculate_annual_demand`: the sum of
absolute quantities of the shipment transactions of the list. -/
def totalShipped (txs : List Transaction) : Nat :=
  ((txs.filter (fun t => t.transaction_type = TransactionType.shipment)).map
    (fun t => t.quantity.natAbs)).sum

/-- `InventorySystem::calculate_annual_demand`: the shipment total
scaled to 365 days of the observed span (minimum one day), truncated to
`u32`; zero when the product has no transactions.  Always `Ok` in the
source. -/
def calculate_annual_demand (s : InventorySystem) (pid : Nat) : Nat :=
  let txs := get_product_transactions s pid
  match txs.map (fun t => t.timestamp.absDay) with
  | [] => 0
  | d :: ds =>
    let first := ds.foldl min d
    let last := ds.foldl max d
    let days_of_data : Int := max (last - first) 1
    (Int.floor (((totalShipped txs : Rat) * 365) / (days_of_data : Rat))).toNat

/-- Per-product value entry built by `perform_abc_analysis`
(`ProductValue`). -/
structure ProductValue where
  product_id : Nat
  annual_demand : Nat
  unit_value : Rat
  annual_value : Rat
  deriving DecidableEq, Repr

/-- Result record of `perform_abc_analysis` (`ABCAnalysisResult`). -/
structure ABCAnalysisResult where
  a_products : List Nat
  b_products : List Nat
  c_products : List Nat
  total_products : Nat
  total_value : Rat
  deriving DecidableEq, Repr

/-- The classification loop of `perform_abc_analysis`: walk the sorted
value list accumulating `cumulative_value / total_value` — a `Decimal`
division that panics when the total catalog value is zero — and
append each product to the A, B or C bucket.  The 0.8 / 0.95 thresholds
are `Decimal::from_f64_retain` images of the `f64` literals; no claim
depends on the sub-`Decimal`-precision differences, so they are
modelled as the exact rationals. -/
def abcLoop (total_value : Rat) :
    List ProductValue → Rat → List Nat → List Nat → List Nat →
      RustResult (List Nat × List Nat × List Nat)
  | [], _, a, b, c => .ok (a, b, c)
  | pv :: rest, cumulative, a, b, c =>
    let cumulative' := cumulative + pv.annual_value
    (decimalDiv cumulative' total_value).bind fun pct =>
      if pct ≤ 4/5 then abcLoop total_value rest cumulative' (a ++ [pv.product_id]) b c
      else if pct ≤ 19/20 then abcLoop total_value rest cumulative' a (b ++ [pv.product_id]) c
      else abcLoop total_value rest cumulative' a b (c ++ [pv.product_id])

/-- The `product_values` list built by `perform_abc_analysis`: one
entry per catalog product with its annualized value (unit cost times
annualized demand). -/
def abcProductValues (s : InventorySystem) : List ProductValue :=
  s.products.map (fun e =>
    let annual_demand := calculate_annual_demand s e.1
    ⟨e.1, annual_demand, e.2.unit_cost, e.2.unit_cost * (annual_demand : Rat)⟩)

/-- The value list after the descending `sort_by` on `annual_value`. -/
def abcSortedValues (s : InventorySystem) : List ProductValue :=
  (abcProductValues s).insertionSort (fun x y => y.annual_value ≤ x.annual_value)

/-- The total annual catalog value (`total_value` in the source,
summed over the sorted value list). -/
def abcTotalValue (s : InventorySystem) : Rat :=
  ((abcSortedValues s).map (fun pv => pv.annual_value)).sum

/-- `InventorySystem::perform_abc_analysis`: build the annualized
value of each product, sort descending by value (`sort_by` on `Decimal` is a
stable descending sort, as is insertion sort with this relation), total
it, and run the classification loop.  The per-product `classification`
updates do not touch any field this embedding carries, so the system is
returned as is on success (a panic unwinds before anything is
returned). -/
def perform_abc_analysis (s : InventorySystem) :
    RustResult (ABCAnalysisResult × InventorySystem) :=
  (abcLoop (abcTotalValue s) (abcSortedValues s) 0 [] [] []).bind fun abc =>
    .ok (⟨abc.1, abc.2.1, abc.2.2, s.products.length, abcTotalValue s⟩, s)

/-! ### SafetyStockCalculator (policy): calculate_dynamic_safety_stock -/

/-- The fields of `enterprise_models.rs::InventoryPolicy` read by
`calculate_dynamic_safety_stock`. -/
structure InventoryPolicy where
  service_level_target : Real
  lead_time_variability : Real

/-- `InventoryPolicy::calculate_dynamic_safety_stock`: z-score bucket
lookup on the target service level, combined variance from demand
variance and squared lead-time variability, rounded `z · sqrt(variance)`
cast to `u32` (the value is non-negative, so `f64::round`, which rounds
half away from zero, agrees with `round`, which rounds half up).
Always `Ok` in the source. -/
noncomputable def InventoryPolicy.calculate_dynamic_safety_stock (pol : InventoryPolicy)
    (demand_std_dev lead_time_days : Real) : Nat :=
  let z_score : Real :=
    if 0.999 ≤ pol.service_level_target then 3.09
    else if 0.99 ≤ pol.service_level_target then 2.33
    else if 0.95 ≤ pol.service_level_target then 1.65
    else if 0.90 ≤ pol.service_level_target then 1.28
    else if 0.85 ≤ pol.service_level_target then 1.04
    else 0.84
  let lead_time_variance := (lead_time_days * pol.lead_time_variability) ^ 2
  let demand_variance := demand_std_dev ^ 2
  let total_variance := lead_time_days * demand_variance + demand_variance * lead_time_variance
  (round (z_score * Real.sqrt total_variance)).toNat

/-- Modelled from the spec (§4.4): the z-score lookup table written
exactly as the spec states it. -/
noncomputable def specZScore (service_level : Real) : Real :=
  if 0.999 ≤ service_level then 3.09
  else if 0.99 ≤ service_level then 2.33
  else if 0.95 ≤ service_level then 1.65
  else if 0.90 ≤ service_level then 1.28
  else if 0.85 ≤ service_level then 1.04
  else 0.84

/-- Modelled from the spec (§4.4): safety stock as the closed spec
formula — `round(z × sqrt(lead_time_days × demand_variance +
demand_variance × (lead_time_days × lead_time_variability)²))`, floored
at 0. -/
noncomputable def specSafetyStock (demand_std_dev lead_time_days lead_time_variability
    service_level : Real) : Nat :=
  (max (round (specZScore service_level *
    Real.sqrt (lead_time_days * demand_std_dev ^ 2 +
      demand_std_dev ^ 2 * (lead_time_days * lead_time_variability) ^ 2))) 0).toNat

/-! ## Claim C2: weekly demand series -/

/-- Adding to one bucket changes exactly that key total of the bucket
list. -/
theorem keyTotal_bumpBucket (k k' : Int × Nat) (q : Nat) (m : List ((Int × Nat) × Nat)) :
    keyTotal (bumpBucket k q m) k' = keyTotal m k' + (if k = k' then q else 0) := by
  induction m with
  | nil => by_cases hk : k = k' <;> simp [bumpBucket, keyTotal, hk]
  | cons e rest ih =>
    obtain ⟨ek, ev⟩ := e
    by_cases he : ek = k
    · rw [show bumpBucket k q ((ek, ev) :: rest) = (ek, ev + q) :: rest by
        simp [bumpBucket, he]]
      by_cases hk : k = k'
      · simp only [keyTotal]
        rw [if_pos (he.trans hk), if_pos (he.trans hk), if_pos hk]
        omega
      · have hne : ¬ (ek = k') := fun h => hk (he.symm.trans h)
        simp only [keyTotal]
        rw [if_neg hne, if_neg hne, if_neg hk]
        omega
    · rw [show bumpBucket k q ((ek, ev) :: rest) = (ek, ev) :: bumpBucket k q rest by
        simp [bumpBucket, he]]
      simp only [keyTotal]
      rw [ih]
      omega

/-- The grouping fold accumulates, per key, exactly the shipment sums of
the transactions it consumes. -/
theorem keyTotal_groupShipments_aux (txs : List Transaction)
    (m : List ((Int × Nat) × Nat)) (k : Int × Nat) :
    keyTotal
      (txs.foldl
        (fun m t =>
          if t.transaction_type = TransactionType.shipment then
            bumpBucket (weekKey t) t.quantity.natAbs m
          else m)
        m) k = keyTotal m k + shipmentSumAt txs k := by
  induction txs generalizing m with
  | nil => simp [shipmentSumAt]
  | cons t ts ih =>
    simp only [List.foldl_cons]
    rw [ih]
    unfold shipmentSumAt
    rw [List.filter_cons]
    by_cases h1 : t.transaction_type = TransactionType.shipment
    · rw [if_pos h1, keyTotal_bumpBucket]
      by_cases h2 : weekKey t = k
      · simp [h1, h2]
        omega
      · simp [h1, h2]
    · simp [h1]

/-- Claim C2, amended: for every transaction log, the weekly demand
series holds exactly the per-(year, week) sums of absolute shipment
quantities (week computed as `(day-of-year - 1) div 7 + 1`), but it is
sorted ascending **by value** — the (year, week) keys are discarded
before `demands.sort()` — not chronologically by key as claimed. -/
theorem weekly_demands_value_sorted (txs : List Transaction) :
    List.Sorted (· ≤ ·) (calculate_weekly_demands txs) ∧
    (calculate_weekly_demands txs).Perm ((groupShipments txs).map Prod.snd) ∧
    (∀ k, keyTotal (groupShipments txs) k = shipmentSumAt txs k) := by
  refine ⟨List.sorted_insertionSort _ _, List.perm_insertionSort _ _, fun k => ?_⟩
  unfold groupShipments
  rw [keyTotal_groupShipments_aux]
  simp [keyTotal]

/-- Claim C2, counterexample: two shipments, 5 units in week 1 and 3
units in week 2 of 2024.  Chronological (key-sorted) order would be
`[5, 3]` as the claim demands; the code returns the value-sorted
`[3, 5]`. -/
theorem weekly_demands_not_key_sorted_cex :
    calculate_weekly_demands
        [⟨1, 1, .shipment, -5, ⟨2024, 3, 100⟩⟩, ⟨1, 1, .shipment, -3, ⟨2024, 10, 107⟩⟩] =
      [3, 5] ∧
    specWeeklySeries
        [⟨1, 1, .shipment, -5, ⟨2024, 3, 100⟩⟩, ⟨1, 1, .shipment, -3, ⟨2024, 10, 107⟩⟩] =
      [5, 3] ∧
    ([3, 5] : List Nat) ≠ [5, 3] := by
  refine ⟨by decide, by decide, by decide⟩

/-! ## Claim C6: urgency score -/

/-- Claim C6, amended: the urgency score is exactly 1 at zero stock;
exactly 0.9 whenever `0 < stock ≤ minimum_stock` (not only at equality,
which is where the claim fails); the linear interpolation
`0.5 + 0.4·(reorder_point − stock)/max(reorder_point − minimum_stock, 1)`
whenever `minimum_stock < stock ≤ reorder_point` (hence exactly 0.5 at
`stock = reorder_point`); and 0.1 only when stock exceeds both
thresholds.  Total over all natural inputs. -/
theorem urgency_piecewise (s rp m : Nat) :
    (s = 0 → calculate_urgency s rp m = 1) ∧
    (s ≠ 0 → s ≤ m → calculate_urgency s rp m = 9/10) ∧
    (m < s → s ≤ rp → calculate_urgency s rp m =
      1/2 + 2/5 * (((rp - s : Nat) : Rat) / ((max (rp - m) 1 : Nat) : Rat))) ∧
    (m < s → rp < s → calculate_urgency s rp m = 1/10) := by
  unfold calculate_urgency
  refine ⟨fun h => by rw [if_pos h], fun h1 h2 => ?_, fun h1 h2 => ?_, fun h1 h2 => ?_⟩
  · rw [if_neg h1, if_pos h2]
  · rw [if_neg (by omega), if_neg (by omega), if_pos h2]
  · rw [if_neg (by omega), if_neg (by omega), if_neg (by omega)]

/-- Claim C6, witness: the four branches evaluated at stock 0, 3, 7 and
11 against minimum 5 and reorder point 10. -/
theorem urgency_witness :
    calculate_urgency 0 10 5 = 1 ∧ calculate_urgency 3 10 5 = 9/10 ∧
    calculate_urgency 7 10 5 = 1/2 + 2/5 * ((3 : Rat)/5) ∧
    calculate_urgency 11 10 5 = 1/10 := by
  refine ⟨(urgency_piecewise 0 10 5).1 rfl,
    (urgency_piecewise 3 10 5).2.1 (by omega) (by omega), ?_,
    (urgency_piecewise 11 10 5).2.2.2 (by omega) (by omega)⟩
  rw [(urgency_piecewise 7 10 5).2.2.1 (by omega) (by omega)]
  norm_num

/-- Claim C6, counterexample: at stock 1, reorder point 10, minimum 5
none of the named cases of the claim applies (stock is neither 0, nor
equal to the minimum, nor above it), so the claim predicts the 0.1
fallthrough; the code returns 0.9. -/
theorem urgency_below_minimum_cex :
    calculate_urgency 1 10 5 = 9/10 ∧ (9/10 : Rat) ≠ 1/10 := by
  constructor
  · norm_num [calculate_urgency]
  · norm_num

/-! ## Claim C4: EOQ with zero holding cost -/

/-- Claim C4: a product whose unit cost is zero (so the 25% holding
cost resolves to the zero `Decimal`) with positive annual demand makes
`calculate_eoq` **panic** on the `Decimal` division — it does not
return the `ArithmeticError` result the claim (and the spec error
design) promises. -/
theorem eoq_zero_holding_cost_panics :
    (Product.mk 0 5 100 10 14).calculate_eoq 1000 50 = .panicked ∧
    (RustResult.panicked : RustResult Nat) ≠ .err .calculationError := by
  constructor
  · norm_num [Product.calculate_eoq, decimalDiv, RustResult.bind]
  · intro h
    cases h

/-! ## Claim C3: policy safety-stock formula -/

/-- Claim C3: for all real inputs, `calculate_dynamic_safety_stock`
computes exactly the spec formula `round(z × sqrt(lead_time_days ×
demand_variance + demand_variance × (lead_time_days ×
lead_time_variability)²))` floored at 0, with z drawn from the
service-level lookup table (≥0.999→3.09, ≥0.99→2.33, ≥0.95→1.65,
≥0.90→1.28, ≥0.85→1.04, else 0.84). -/
theorem dynamic_safety_stock_matches_spec (pol : InventoryPolicy)
    (demand_std_dev lead_time_days : Real) :
    pol.calculate_dynamic_safety_stock demand_std_dev lead_time_days =
      specSafetyStock demand_std_dev lead_time_days
        pol.lead_time_variability pol.service_level_target := by
  unfold InventoryPolicy.calculate_dynamic_safety_stock specSafetyStock specZScore
  have h : ∀ a : Int, (max a 0).toNat = a.toNat := fun a => by omega
  rw [h]

/-! ## Claim C9: rejected over-shipment leaves the system unchanged -/

/-- Claim C9: when a (product, location) snapshot exists and a shipment
transaction has absolute quantity exceeding the on-hand quantity,
`record_transaction` returns the validation error and the state is
exactly the input state — no snapshot field changes and the transaction
is not appended to the log. -/
theorem record_insufficient_shipment_rejected (s : InventorySystem) (t : Transaction)
    (snap : InventorySnapshot)
    (hfind : findEntry s.inventory (t.product_id, t.location_id) = some snap)
    (hty : t.transaction_type = TransactionType.shipment)
    (hlt : snap.quantity_on_hand < t.quantity.natAbs) :
    record_transaction s t = (.err .validationError, s) := by
  unfold record_transaction
  rw [hfind]
  simp [hty, hlt]

/-- Claim C9, witness: a snapshot holding 2 on hand rejects a shipment
of 5 and the state is untouched. -/
theorem record_insufficient_witness :
    record_transaction
      ⟨[], [((1, 1), ⟨1, 1, 2, 2, none⟩)], []⟩
      ⟨1, 1, .shipment, -5, ⟨2024, 3, 100⟩⟩ =
      (.err .validationError, ⟨[], [((1, 1), ⟨1, 1, 2, 2, none⟩)], []⟩) :=
  record_insufficient_shipment_rejected _ _ ⟨1, 1, 2, 2, none⟩ rfl rfl (by norm_num)

/-! ## Claim C10: transaction without snapshot is logged untouched -/

/-- Claim C10: when no snapshot exists for the (product, location) pair
of a transaction, `record_transaction` returns `Ok`, the inventory map
is exactly unchanged, the transaction is appended to the log, and (for
a shipment) it raises the shipment total feeding the annualized-demand
and forecast computations by its absolute quantity. -/
theorem record_no_snapshot_appends_only (s : InventorySystem) (t : Transaction)
    (hfind : findEntry s.inventory (t.product_id, t.location_id) = none) :
    record_transaction s t = (.ok (), { s with transactions := s.transactions ++ [t] }) ∧
    (record_transaction s t).2.inventory = s.inventory ∧
    (t.transaction_type = TransactionType.shipment →
      totalShipped (get_product_transactions (record_transaction s t).2 t.product_id) =
        totalShipped (get_product_transactions s t.product_id) + t.quantity.natAbs) := by
  have h1 : record_transaction s t =
      (.ok (), { s with transactions := s.transactions ++ [t] }) := by
    unfold record_transaction
    rw [hfind]
  refine ⟨h1, by rw [h1], fun hty => ?_⟩
  rw [h1]
  unfold get_product_transactions totalShipped
  simp [List.filter_append, hty]

/-- Claim C10, witness: a shipment of 6 against an empty inventory map
is accepted, appended after the existing shipment of 4, and the
product shipment total becomes 10. -/
theorem record_no_snapshot_witness :
    record_transaction ⟨[], [], [⟨1, 1, .shipment, -4, ⟨2024, 3, 100⟩⟩]⟩
        ⟨1, 1, .shipment, -6, ⟨2024, 10, 107⟩⟩ =
      (.ok (), ⟨[], [], [⟨1, 1, .shipment, -4, ⟨2024, 3, 100⟩⟩,
        ⟨1, 1, .shipment, -6, ⟨2024, 10, 107⟩⟩]⟩) ∧
    totalShipped (get_product_transactions
        (record_transaction ⟨[], [], [⟨1, 1, .shipment, -4, ⟨2024, 3, 100⟩⟩]⟩
          ⟨1, 1, .shipment, -6, ⟨2024, 10, 107⟩⟩).2 1) = 4 + 6 := by
  obtain ⟨h1, _h2, h3⟩ := record_no_snapshot_appends_only
    ⟨[], [], [⟨1, 1, .shipment, -4, ⟨2024, 3, 100⟩⟩]⟩
    ⟨1, 1, .shipment, -6, ⟨2024, 10, 107⟩⟩ rfl
  refine ⟨h1, ?_⟩
  rw [h3 rfl]
  decide

/-! ## Claim C7: OLS trend slope and its sign -/

/-- Twice the slope numerator equals the double sum of
`(j − k)(y j − y k)` over all index pairs. -/
theorem slope_double_sum (n : Nat) (y : Nat → Rat) :
    ∑ j in Finset.range n, ∑ k in Finset.range n, (((j : Rat) - k) * (y j - y k)) =
      2 * ((n : Rat) * (∑ i in Finset.range n, (i : Rat) * y i) -
        (∑ i in Finset.range n, (i : Rat)) * (∑ i in Finset.range n, y i)) := by
  have e : ∀ j k : Nat, ((j : Rat) - k) * (y j - y k) =
      (j : Rat) * y j - (j : Rat) * y k - (k : Rat) * y j + (k : Rat) * y k := by
    intros; ring
  simp only [e, Finset.sum_add_distrib, Finset.sum_sub_distrib, ← Finset.mul_sum,
    ← Finset.sum_mul, Finset.sum_const, Finset.card_range, nsmul_eq_mul]
  have h : ∑ x in Finset.range n, (x : Rat) * ((n : Rat) * y x) =
      (n : Rat) * ∑ x in Finset.range n, (x : Rat) * y x := by
    rw [Finset.mul_sum]
    exact Finset.sum_congr rfl fun i _ => by ring
  rw [h]
  ring

/-- Strict Chebyshev-type bound: for a sequence strictly increasing on
the first `n ≥ 2` indices, the slope numerator is positive. -/
theorem slope_num_pos (n : Nat) (hn : 2 ≤ n) (y : Nat → Rat)
    (hm : ∀ j k, j < k → k < n → y j < y k) :
    0 < (n : Rat) * (∑ i in Finset.range n, (i : Rat) * y i) -
      (∑ i in Finset.range n, (i : Rat)) * (∑ i in Finset.range n, y i) := by
  have hterm : ∀ j k, j < n → k < n → 0 ≤ ((j : Rat) - k) * (y j - y k) := by
    intro j k hj hk
    rcases lt_trichotomy j k with h | h | h
    · have h1 : (j : Rat) ≤ k := by
        simp only [Nat.cast_le]
        omega
      have h2 : y j ≤ y k := le_of_lt (hm j k h hk)
      nlinarith
    · simp [h]
    · have h1 : (k : Rat) ≤ j := by
        simp only [Nat.cast_le]
        omega
      have h2 : y k ≤ y j := le_of_lt (hm k j h hj)
      nlinarith
  have key : 0 < ∑ j in Finset.range n,
      ∑ k in Finset.range n, (((j : Rat) - k) * (y j - y k)) := by
    apply Finset.sum_pos'
    · intro j hj
      exact Finset.sum_nonneg fun k hk =>
        hterm j k (Finset.mem_range.1 hj) (Finset.mem_range.1 hk)
    · refine ⟨1, Finset.mem_range.2 (by omega), ?_⟩
      apply Finset.sum_pos'
      · intro k hk
        exact hterm 1 k (by omega) (Finset.mem_range.1 hk)
      · refine ⟨0, Finset.mem_range.2 (by omega), ?_⟩
        have hy : 0 < y 1 - y 0 := sub_pos.2 (hm 0 1 (by omega) (by omega))
        have hc : ((1 : Nat) : Rat) - ((0 : Nat) : Rat) = 1 := by norm_num
        nlinarith
  rw [slope_double_sum] at key
  linarith

/-- The slope denominator `n·Σx² − (Σx)²` is positive for `n ≥ 2`, so
the degenerate-denominator guard of the source never fires there. -/
theorem trendDen_pos (l : List Nat) (hn : 2 ≤ l.length) : 0 < trendDen l := by
  have h := slope_num_pos l.length hn (fun i => (i : Rat))
    (fun j k hjk _ => by simp only []; exact_mod_cast hjk)
  unfold trendDen
  have e1 : ∑ i in Finset.range l.length, (i : Rat) ^ 2 =
      ∑ i in Finset.range l.length, (i : Rat) * (i : Rat) :=
    Finset.sum_congr rfl fun i _ => sq (i : Rat)
  rw [e1]
  nlinarith [h]

/-- A strictly increasing series has a positive slope numerator. -/
theorem trendNum_pos (l : List Nat) (hn : 2 ≤ l.length) (hp : l.Pairwise (· < ·)) :
    0 < trendNum l := by
  have hm : ∀ j k, j < k → k < l.length → (l.getD j 0 : Rat) < (l.getD k 0 : Rat) := by
    intro j k hjk hk
    have hj : j < l.length := lt_trans hjk hk
    rw [List.getD_eq_getElem l 0 hj, List.getD_eq_getElem l 0 hk]
    exact_mod_cast List.pairwise_iff_getElem.1 hp j k hj hk hjk
  have h := slope_num_pos l.length hn (fun i => (l.getD i 0 : Rat)) hm
  unfold trendNum
  exact h

/-- A strictly decreasing series has a negative slope numerator. -/
theorem trendNum_neg (l : List Nat) (hn : 2 ≤ l.length) (hp : l.Pairwise (· > ·)) :
    trendNum l < 0 := by
  have hm : ∀ j k, j < k → k < l.length → (-(l.getD j 0 : Rat)) < (-(l.getD k 0 : Rat)) := by
    intro j k hjk hk
    have hj : j < l.length := lt_trans hjk hk
    rw [List.getD_eq_getElem l 0 hj, List.getD_eq_getElem l 0 hk]
    have := List.pairwise_iff_getElem.1 hp j k hj hk hjk
    have : (l[k] : Rat) < (l[j] : Rat) := by exact_mod_cast this
    linarith
  have h := slope_num_pos l.length hn (fun i => -(l.getD i 0 : Rat)) hm
  have e1 : ∑ i in Finset.range l.length, (i : Rat) * -(l.getD i 0 : Rat) =
      -∑ i in Finset.range l.length, (i : Rat) * (l.getD i 0 : Rat) := by
    rw [← Finset.sum_neg_distrib]
    exact Finset.sum_congr rfl fun i _ => by ring
  have e2 : ∑ i in Finset.range l.length, -(l.getD i 0 : Rat) =
      -∑ i in Finset.range l.length, (l.getD i 0 : Rat) := by
    rw [← Finset.sum_neg_distrib]
  rw [e1, e2] at h
  unfold trendNum
  nlinarith [h]

/-- Claim C7: the trend factor is 0 below 2 points; for 2 or more
points the denominator is non-degenerate and the trend equals the OLS
slope `(n·Σxy − Σx·Σy)/(n·Σx² − (Σx)²)`; a strictly increasing
12-point series yields a positive trend, a strictly decreasing one a
negative trend, and a constant series a zero trend. -/
theorem trend_ols_and_signs (l : List Nat) (c : Nat) :
    (l.length < 2 → calculate_trend l = 0) ∧
    (2 ≤ l.length → trendDen l ≠ 0 ∧ calculate_trend l = trendNum l / trendDen l) ∧
    (l.length = 12 → l.Pairwise (· < ·) → 0 < calculate_trend l) ∧
    (l.length = 12 → l.Pairwise (· > ·) → calculate_trend l < 0) ∧
    ((∀ x ∈ l, x = c) → calculate_trend l = 0) := by
  refine ⟨fun h => by rw [calculate_trend, if_pos h], fun h2 => ?_, fun h12 hp => ?_,
    fun h12 hp => ?_, fun hc => ?_⟩
  · have hd := trendDen_pos l h2
    refine ⟨ne_of_gt hd, ?_⟩
    rw [calculate_trend, if_neg (by omega), if_neg (ne_of_gt hd)]
  · have h2 : 2 ≤ l.length := by omega
    have hd := trendDen_pos l h2
    rw [calculate_trend, if_neg (by omega), if_neg (ne_of_gt hd)]
    exact div_pos (trendNum_pos l h2 hp) hd
  · have h2 : 2 ≤ l.length := by omega
    have hd := trendDen_pos l h2
    rw [calculate_trend, if_neg (by omega), if_neg (ne_of_gt hd)]
    exact div_neg_of_neg_of_pos (trendNum_neg l h2 hp) hd
  · have hnum : trendNum l = 0 := by
      have hgd : ∀ i ∈ Finset.range l.length, (l.getD i 0 : Rat) = (c : Rat) := by
        intro i hi
        have hi' := Finset.mem_range.1 hi
        rw [List.getD_eq_getElem l 0 hi']
        exact_mod_cast congrArg (Nat.cast : Nat → Rat) (hc _ (l.getElem_mem hi'))
      unfold trendNum
      rw [Finset.sum_congr rfl fun i hi => by rw [hgd i hi],
        Finset.sum_congr rfl fun i hi => hgd i hi]
      rw [Finset.sum_const, Finset.card_range, nsmul_eq_mul]
      have : ∑ i in Finset.range l.length, (i : Rat) * (c : Rat) =
          (∑ i in Finset.range l.length, (i : Rat)) * (c : Rat) := by
        rw [Finset.sum_mul]
      rw [this]
      ring
    rw [calculate_trend]
    split_ifs with h1 hden
    · rfl
    · rfl
    · rw [hnum, zero_div]

/-- Claim C7, witness: the sign conclusions evaluated on the ramp
1..12, the reversed ramp, a constant series and a singleton. -/
theorem trend_witness :
    0 < calculate_trend [1, 2, 3, 4, 5, 6, 7, 8, 9, 10, 11, 12] ∧
    calculate_trend [12, 11, 10, 9, 8, 7, 6, 5, 4, 3, 2, 1] < 0 ∧
    calculate_trend [5, 5, 5] = 0 ∧
    calculate_trend [7] = 0 := by
  refine ⟨(trend_ols_and_signs [1, 2, 3, 4, 5, 6, 7, 8, 9, 10, 11, 12] 0).2.2.1 rfl
      (by decide),
    (trend_ols_and_signs [12, 11, 10, 9, 8, 7, 6, 5, 4, 3, 2, 1] 0).2.2.2.1 rfl (by decide),
    (trend_ols_and_signs [5, 5, 5] 5).2.2.2.2 (by decide),
    (trend_ols_and_signs [7] 0).1 (by decide)⟩

/-! ## Claim C8: forecast confidence score -/

/-- Claim C8, amended: below 3 points the confidence is the fixed 0.5;
otherwise it is `1 − min(cov, 1)` clamped below at 0.1 with
`cov = stdev/mean` — but for mean ≤ 0 the source sets `cov` to **1**
(yielding the 0.1 floor), not to 0 as the claim states. -/
theorem confidence_cases (l : List Nat) :
    (l.length < 3 → calculate_forecast_confidence l = 1/2) ∧
    (3 ≤ l.length → meanQ l ≤ 0 → calculate_forecast_confidence l = 1/10) ∧
    (3 ≤ l.length → 0 < meanQ l →
      calculate_forecast_confidence l =
        max (1 - min (Real.sqrt (popVarQ l) / (meanQ l : Real)) 1) (1/10)) := by
  unfold calculate_forecast_confidence
  refine ⟨fun h => by rw [if_pos h], fun h3 hm => ?_, fun h3 hm => ?_⟩
  · rw [if_neg (by omega)]
    simp only [if_neg (not_lt.2 hm)]
    norm_num
  · rw [if_neg (by omega)]
    simp only [if_pos hm]

/-- Claim C8, witness: the all-zero 3-point series lands on the 0.1
floor and a 2-point series gets the fixed 0.5. -/
theorem confidence_witness :
    calculate_forecast_confidence [0, 0, 0] = 1/10 ∧
    calculate_forecast_confidence [4, 4] = 1/2 := by
  refine ⟨(confidence_cases [0, 0, 0]).2.1 (by simp) (by norm_num [meanQ]),
    (confidence_cases [4, 4]).1 (by simp)⟩

/-- Claim C8, counterexample: on `[0, 0, 0]` the claim (cov = 0 when
the mean is ≤ 0) predicts confidence `1 − 0 = 1`; the code sets cov to
1 there and returns the 0.1 floor. -/
theorem confidence_zero_mean_cex :
    calculate_forecast_confidence [0, 0, 0] = 1/10 ∧ ((1 : Real)/10) ≠ 1 := by
  constructor
  · norm_num [calculate_forecast_confidence, meanQ]
  · norm_num

/-! ## Claim C5: ABC classification at zero total value -/

/-- Claim C5, amended: a **nonempty** catalog whose total annual value
is zero makes `perform_abc_analysis` panic — the first loop iteration
divides the zero cumulative value by the zero total (`rust_decimal`
division by zero) — so no item is classified at all; only the empty
catalog completes, trivially with empty classes. -/
theorem abc_zero_total_value (s : InventorySystem) :
    (s.products ≠ [] → abcTotalValue s = 0 → perform_abc_analysis s = .panicked) ∧
    (s.products = [] →
      perform_abc_analysis s = .ok (⟨[], [], [], 0, 0⟩, s)) := by
  constructor
  · intro hne h0
    have hlen : (abcSortedValues s).length = s.products.length := by
      unfold abcSortedValues abcProductValues
      rw [List.length_insertionSort, List.length_map]
    obtain ⟨pv, rest, hcons⟩ : ∃ pv rest, abcSortedValues s = pv :: rest := by
      cases hsv : abcSortedValues s with
      | nil =>
        exfalso
        rw [hsv] at hlen
        exact hne (List.length_eq_zero.1 hlen.symm)
      | cons pv rest => exact ⟨pv, rest, rfl⟩
    unfold perform_abc_analysis
    rw [hcons, h0]
    simp [abcLoop, decimalDiv, RustResult.bind]
  · intro he
    have hsv : abcSortedValues s = [] := by
      unfold abcSortedValues abcProductValues
      rw [he]
      rfl
    have h0 : abcTotalValue s = 0 := by
      unfold abcTotalValue
      rw [hsv]
      rfl
    unfold perform_abc_analysis
    rw [hsv, h0, he]
    simp [abcLoop, RustResult.bind]

/-- Claim C5, witness: one product, no transactions (hence zero total
value) — the analysis panics. -/
theorem abc_zero_total_witness :
    perform_abc_analysis ⟨[(1, ⟨10, 5, 100, 10, 14⟩)], [], []⟩ = .panicked := by
  apply (abc_zero_total_value ⟨[(1, ⟨10, 5, 100, 10, 14⟩)], [], []⟩).1
  · simp
  · norm_num [abcTotalValue, abcSortedValues, abcProductValues, calculate_annual_demand,
      get_product_transactions, totalShipped, List.insertionSort, List.orderedInsert]

/-- Claim C5, counterexample: a concrete one-item catalog with no
shipments.  The claim says the classification completes normally with
the item in class C; evaluating the code, it panics on the Decimal
division `0 / 0` and returns nothing. -/
theorem abc_zero_total_cex :
    perform_abc_analysis ⟨[(2, ⟨10, 5, 100, 10, 14⟩)], [], []⟩ = .panicked := by
  norm_num [perform_abc_analysis, abcTotalValue, abcSortedValues, abcProductValues,
    calculate_annual_demand, get_product_transactions, totalShipped, abcLoop,
    decimalDiv, RustResult.bind, List.insertionSort, List.orderedInsert]

/-! ## Claim C1: batch behaviour on a per-item failure -/

/-- If any member of the remaining catalog has a failing item step, the
catalog loop fails as a whole, whatever the accumulator. -/
theorem reorderLoop_fails_of_mem (s : InventorySystem) (pid : Nat) (p : Product) :
    ∀ (lst : List (Nat × Product)) (acc : List ReorderRecommendation),
      (pid, p) ∈ lst → (reorderItemStep s pid p).isOk = false →
      (reorderLoop s lst acc).isOk = false := by
  intro lst
  induction lst with
  | nil => intro acc h _; exact absurd h (List.not_mem_nil _)
  | cons e rest ih =>
    intro acc hmem hfail
    obtain ⟨epid, ep⟩ := e
    rw [show reorderLoop s ((epid, ep) :: rest) acc =
      (reorderItemStep s epid ep).bind (fun r =>
        match r with
        | none => reorderLoop s rest acc
        | some rec' => reorderLoop s rest (acc ++ [rec'])) from rfl]
    rcases List.mem_cons.1 hmem with he | hr
    · have h1 : pid = epid := congrArg Prod.fst he
      have h2 : p = ep := congrArg Prod.snd he
      subst h1
      subst h2
      cases hstep : reorderItemStep s pid p with
      | ok v =>
        rw [hstep] at hfail
        simp [RustResult.isOk] at hfail
      | err e => simp [RustResult.bind, RustResult.isOk, hstep]
      | panicked => simp [RustResult.bind, RustResult.isOk, hstep]
    · cases hstep : reorderItemStep s epid ep with
      | ok v =>
        cases v with
        | none =>
          simp only [hstep, RustResult.bind]
          exact ih acc hr hfail
        | some r =>
          simp only [hstep, RustResult.bind]
          exact ih _ hr hfail
      | err e => simp [RustResult.bind, RustResult.isOk, hstep]
      | panicked => simp [RustResult.bind, RustResult.isOk, hstep]

/-- Claim C1, amended: a failure (error or panic) in the sub-computation
of any single catalog item **aborts the whole batch**: every `?` in the
loop body propagates immediately, so `calculate_reorder_recommendations`
returns no ranked list and surfaces no per-item error record — the
opposite of the fail-soft behaviour the claim describes. -/
theorem reorder_item_failure_aborts_batch (s : InventorySystem) (pid : Nat) (p : Product)
    (hmem : (pid, p) ∈ s.products)
    (hfail : (reorderItemStep s pid p).isOk = false) :
    (calculate_reorder_recommendations s).isOk = false := by
  unfold calculate_reorder_recommendations
  have h := reorderLoop_fails_of_mem s pid p s.products [] hmem hfail
  cases hh : reorderLoop s s.products [] with
  | ok v =>
    rw [hh] at h
    simp [RustResult.isOk] at h
  | err e => simp [RustResult.bind, RustResult.isOk]
  | panicked => simp [RustResult.bind, RustResult.isOk]

/-- A concrete two-product catalog: product 1 has a zero unit cost plus
a shipment history, so its EOQ sub-computation divides by a zero
holding cost and panics; product 2 is healthy, qualifies for a
recommendation, and would be ranked in a fail-soft batch. -/
def failingItemSystem : InventorySystem :=
  ⟨[(2, ⟨5, 0, 100, 10, 14⟩), (1, ⟨0, 0, 100, 10, 14⟩)], [],
    [⟨1, 1, .shipment, -10, ⟨2024, 3, 100⟩⟩]⟩

/-- Claim C1, witness: the failing product 1 is in the catalog and the
batch call does not return a result list. -/
theorem reorder_abort_witness :
    ((1 : Nat), (⟨0, 0, 100, 10, 14⟩ : Product)) ∈ failingItemSystem.products ∧
    (calculate_reorder_recommendations failingItemSystem).isOk = false := by
  have hmem : ((1 : Nat), (⟨0, 0, 100, 10, 14⟩ : Product)) ∈ failingItemSystem.products := by
    simp [failingItemSystem]
  refine ⟨hmem, reorder_item_failure_aborts_batch failingItemSystem 1 _ hmem ?_⟩
  norm_num [reorderItemStep, Product.needs_reorder, get_total_inventory_for_product,
    forecast_demand, get_product_transactions, calculate_weekly_demands, groupShipments,
    bumpBucket, weekKey, calculate_safety_stock, meanQ, Product.calculate_eoq, decimalDiv,
    RustResult.bind, RustResult.isOk, failingItemSystem, List.insertionSort,
    List.orderedInsert]

/-- Claim C1, counterexample: on `failingItemSystem` the whole batch
call panics.  The claim demands that the failing item be skipped, its
error surfaced alongside the results, and the recommendation of the
healthy product 2 still returned; instead nothing is returned at
all. -/
theorem reorder_abort_cex :
    calculate_reorder_recommendations failingItemSystem = .panicked := by
  norm_num [calculate_reorder_recommendations, reorderLoop, reorderItemStep,
    Product.needs_reorder, get_total_inventory_for_product, forecast_demand,
    get_product_transactions, calculate_weekly_demands, groupShipments, bumpBucket,
    weekKey, calculate_safety_stock, meanQ, Product.calculate_eoq, decimalDiv,
    calculate_urgency, RustResult.bind, RustResult.isOk, failingItemSystem,
    List.insertionSort, List.orderedInsert]
